import Mathlib

/-!
Verification development for the solar-insight-explorer backend.

Numbers are modelled as exact rationals (`ℚ`): the JavaScript source works on
IEEE doubles, but every constant in the repository is a short decimal literal
and every claim under study is stated with explicit tolerances, so the
idealised decimal/rational semantics is the intended reading.  JavaScript
`x.toFixed(f)` followed by `parseFloat`, and `Math.round`, round half towards
positive infinity; both are modelled with `Int.floor`.  Division, which in
JavaScript can produce `Infinity`/`NaN`, is modelled with the `JsNum` type
that keeps those non-finite values distinct from finite numbers.

Each embedded module of the repository lives in its own namespace:
* `UtilityBillParser` — `backend/src/utils/utilityBillParser.js` (the
  calculation helpers, identical in both variants of the file);
* `ImageProcessor` — the image-processing module (OCR field extraction and
  `parseUtilityBillImage`);
* `Sunroof`, `PVWatts`, `Srec` — the three external estimation adapters;
* `PdfParser` — `backend/src/utils/pdfParser.js` (`parseProposalPdf`);
* `BillParserAI` — the AI/pattern/fallback variant of
  `parseUtilityBillPdf`;
* `Analysis7`, `Analysis8` — the two variants of
  `services/analysisService.js`.
-/

/-- JavaScript `Math.round`: round half towards `+∞`. -/
def jsRound (q : ℚ) : ℤ := ⌊q + 1/2⌋

/-- JavaScript `parseFloat(x.toFixed(f))` for finite `x`: round to `f`
decimal places, half towards `+∞`. -/
def toFixedRound (f : ℕ) (q : ℚ) : ℚ := (jsRound (q * 10 ^ f) : ℚ) / 10 ^ f

/-- Two-decimal rounding, the ubiquitous `parseFloat((…).toFixed(2))`. -/
def toFixed2 (q : ℚ) : ℚ := toFixedRound 2 q

/-- A JavaScript number: finite, `Infinity`, `-Infinity` or `NaN`. -/
inductive JsNum where
  | num : ℚ → JsNum
  | posInf : JsNum
  | negInf : JsNum
  | nan : JsNum
deriving DecidableEq, Repr

/-- JavaScript division `a / b` on numbers (`x/0` is `±Infinity`, `0/0` is
`NaN`). -/
def jsDiv (a b : ℚ) : JsNum :=
  if b = 0 then
    if 0 < a then .posInf else if a < 0 then .negInf else .nan
  else
    .num (a / b)

/-- `parseFloat(x.toFixed(1))` lifted to `JsNum`: `toFixed` renders
`Infinity`/`NaN` as their names and `parseFloat` reads them back. -/
def jsToFixed1 : JsNum → JsNum
  | .num q => .num (toFixedRound 1 q)
  | x => x

/-- The twelve month names used throughout the source. -/
def monthNames : List String :=
  ["January", "February", "March", "April", "May", "June",
   "July", "August", "September", "October", "November", "December"]

namespace UtilityBillParser

/-- The residential seasonal usage distribution of
`estimateMonthlyEnergyUsage` (both variants of `utilityBillParser.js`). -/
def usageDistribution : List ℚ :=
  [10/100, 9/100, 8/100, 7/100, 7/100, 8/100,
   10/100, 10/100, 8/100, 7/100, 8/100, 8/100]

/-- `estimateMonthlyEnergyUsage(annualUsage)`: `null` when the annual usage
is falsy, otherwise a month-keyed map of `Math.round(annualUsage * pct)`. -/
def estimateMonthlyEnergyUsage (annualUsage : ℚ) : Option (List (String × ℚ)) :=
  if annualUsage = 0 then none
  else some (List.zipWith (fun m p => (m, (jsRound (annualUsage * p) : ℚ)))
    monthNames usageDistribution)

/-- `calculateUtilityBill(energyUsage, rate)`: `null` on a falsy usage or
rate, else the two-decimal bill. -/
def calculateUtilityBill (energyUsage rate : ℚ) : Option ℚ :=
  if energyUsage = 0 ∨ rate = 0 then none
  else some (toFixed2 (energyUsage * rate))

/-- `calculateUtilityBillWithSolar(energyUsage, solarProduction, rate)`:
`null` on any falsy input, else the bill on the clamped remaining usage. -/
def calculateUtilityBillWithSolar (energyUsage solarProduction rate : ℚ) : Option ℚ :=
  if energyUsage = 0 ∨ solarProduction = 0 ∨ rate = 0 then none
  else some (toFixed2 (max 0 (energyUsage - solarProduction) * rate))

/-- `calculateSavings(billWithoutSolar, billWithSolar)`: `null` when the
first bill is falsy (`null` or `0`) or the second is `null`. -/
def calculateSavings : Option ℚ → Option ℚ → Option ℚ
  | none, _ => none
  | some _, none => none
  | some bwo, some bs => if bwo = 0 then none else some (toFixed2 (bwo - bs))

end UtilityBillParser

/-- The `{success, data}` envelope every estimation adapter returns; on the
failure paths the source also attaches an `error` message. -/
structure AdapterResult (α : Type) where
  success : Bool
  error : Option String
  data : α
deriving DecidableEq, Repr

namespace Sunroof

/-- A latitude/longitude pair. -/
structure LatLng where
  latitude : ℚ
  longitude : ℚ
deriving DecidableEq, Repr

/-- A calendar date as it appears in the mock payload. -/
structure DateYMD where
  year : ℕ
  month : ℕ
  day : ℕ
deriving DecidableEq, Repr

/-- Per-segment statistics of the mock payload. -/
structure SegmentStats where
  areaMeters2 : ℚ
  sunshineQuantiles : List ℚ
  groundAreaMeters2 : ℚ
deriving DecidableEq, Repr

/-- A roof segment of the mock payload. -/
structure RoofSegment where
  pitchDegrees : ℚ
  azimuthDegrees : ℚ
  stats : SegmentStats
deriving DecidableEq, Repr

/-- The `solarPotential` block of the building-insights payload. -/
structure SolarPotentialInfo where
  maxArrayAreaMeters2 : ℚ
  maxCapacityKw : ℚ
  panelCapacityWatts : ℚ
  panelHeightMeters : ℚ
  panelWidthMeters : ℚ
  panelLifetimeYears : ℕ
  yearlyEnergyDcKwh : ℚ
  carbonOffsetFactorKgPerMwh : ℚ
deriving DecidableEq, Repr

/-- Segment summary inside a panel configuration. -/
structure RoofSegmentSummary where
  pitchDegrees : ℚ
  azimuthDegrees : ℚ
  panelsCount : ℕ
  yearlyEnergyDcKwh : ℚ
deriving DecidableEq, Repr

/-- A panel configuration of the mock payload. -/
structure PanelConfig where
  panelsCount : ℕ
  yearlyEnergyDcKwh : ℚ
  roofSegmentSummaries : List RoofSegmentSummary
deriving DecidableEq, Repr

/-- The building-insights payload (`_note` is rendered as `note`). -/
structure SunroofData where
  note : String
  name : String
  center : LatLng
  imageryDate : DateYMD
  imageryProcessedDate : DateYMD
  roofSegmentStats : List RoofSegment
  solarPotential : SolarPotentialInfo
  solarPanelConfigs : List PanelConfig
deriving DecidableEq, Repr

/-- `_getMockSolarPotential(latitude, longitude)` of
`googleSunroofService.js`. -/
def getMockSolarPotential (latitude longitude : ℚ) : SunroofData :=
  { note := "This is mock data for testing purposes"
    name := "buildings/" ++ toString latitude ++ "," ++ toString longitude
    center := { latitude, longitude }
    imageryDate := ⟨2022, 6, 15⟩
    imageryProcessedDate := ⟨2022, 6, 20⟩
    roofSegmentStats :=
      [ ⟨25, 180, ⟨50, [85/100, 87/100, 90/100, 92/100, 95/100, 97/100,
          98/100, 99/100, 1], 48⟩⟩,
        ⟨15, 90, ⟨30, [65/100, 70/100, 75/100, 80/100, 82/100, 85/100,
          87/100, 90/100, 92/100], 29⟩⟩ ]
    solarPotential :=
      { maxArrayAreaMeters2 := 70
        maxCapacityKw := 14
        panelCapacityWatts := 250
        panelHeightMeters := 165/100
        panelWidthMeters := 99/100
        panelLifetimeYears := 25
        yearlyEnergyDcKwh := 15000
        carbonOffsetFactorKgPerMwh := 680 }
    solarPanelConfigs :=
      [ ⟨20, 6000, [⟨25, 180, 15, 4500⟩, ⟨15, 90, 5, 1500⟩]⟩,
        ⟨40, 12000, [⟨25, 180, 30, 9000⟩, ⟨15, 90, 10, 3000⟩]⟩ ] }

/-- `getSolarPotential(latitude, longitude)`.  The live HTTP call is an
injected `Except` outcome.  All throws (missing coordinate, missing API key,
live failure) land in the `catch`, which returns `success: false` with the
mock payload attached. -/
def getSolarPotential (latitude longitude : ℚ) (apiKeyConfigured : Bool)
    (live : Except String SunroofData) : AdapterResult SunroofData :=
  if latitude = 0 ∨ longitude = 0 then
    { success := false, error := some "Latitude and longitude are required"
      data := getMockSolarPotential latitude longitude }
  else if ¬apiKeyConfigured then
    { success := false, error := some "Google Sunroof API key is not configured"
      data := getMockSolarPotential latitude longitude }
  else
    match live with
    | .ok d => { success := true, error := none, data := d }
    | .error msg =>
        { success := false, error := some msg
          data := getMockSolarPotential latitude longitude }

end Sunroof

namespace PVWatts

/-- The fixed 12-value seasonal distribution of `_getMockSolarProduction`. -/
def monthlyDistribution : List ℚ :=
  [63/1000, 74/1000, 87/1000, 97/1000, 102/1000, 101/1000,
   102/1000, 99/1000, 93/1000, 80/1000, 65/1000, 57/1000]

/-- The `inputs` block of a PVWatts response. -/
structure PVWattsInputs where
  system_capacity : ℚ
  lat : ℚ
  lon : ℚ
  azimuth : ℚ
  tilt : ℚ
  array_type : ℕ
  module_type : ℕ
  losses : ℚ
deriving DecidableEq, Repr

/-- The `outputs` block of a PVWatts response. -/
structure PVWattsOutputs where
  ac_annual : ℚ
  ac_monthly : List ℚ
  capacity_factor : ℚ
  solrad_annual : ℚ
  solrad_monthly : List ℚ
deriving DecidableEq, Repr

/-- A PVWatts response. -/
structure PVWattsData where
  version : String
  inputs : PVWattsInputs
  outputs : PVWattsOutputs
deriving DecidableEq, Repr

/-- `_getMockSolarProduction(systemCapacity)` of `pvWattsService.js`:
1400 kWh per installed kW spread over `monthlyDistribution`. -/
def getMockSolarProduction (systemCapacity : ℚ) : PVWattsData :=
  let acAnnual : ℚ := (jsRound (systemCapacity * 1400) : ℚ)
  { version := "1.0.0"
    inputs := { system_capacity := systemCapacity, lat := 40, lon := -75
                azimuth := 180, tilt := 20, array_type := 1, module_type := 0
                losses := 1408/100 }
    outputs := { ac_annual := acAnnual
                 ac_monthly := monthlyDistribution.map
                   (fun factor => (jsRound (acAnnual * factor) : ℚ))
                 capacity_factor := 16
                 solrad_annual := 45/10
                 solrad_monthly := [29/10, 35/10, 43/10, 51/10, 56/10, 58/10,
                   59/10, 56/10, 49/10, 38/10, 29/10, 26/10] } }

/-- `getSolarProduction(params)` of `pvWattsService.js`.  Every failure —
parameter validation, unconfigured API key, or live-call error — yields
`success: true` with the mock payload (the catch comment says so
explicitly). -/
def getSolarProduction (systemCapacity latitude longitude : ℚ)
    (apiKeyConfigured : Bool) (live : Except String PVWattsData) :
    AdapterResult PVWattsData :=
  if systemCapacity = 0 ∨ latitude = 0 ∨ longitude = 0 then
    { success := true, error := none, data := getMockSolarProduction systemCapacity }
  else if ¬apiKeyConfigured then
    { success := true, error := none, data := getMockSolarProduction systemCapacity }
  else
    match live with
    | .ok d => { success := true, error := none, data := d }
    | .error _ =>
        { success := true, error := none, data := getMockSolarProduction systemCapacity }

/-- The record produced by `formatSolarProduction` (the `outputs` null-check
of the source is a guard against malformed HTTP payloads; the typed model
always carries outputs). -/
structure FormattedProduction where
  systemCapacity : ℚ
  annualProduction : ℚ
  monthlyProduction : List (String × ℚ)
  capacityFactor : ℚ
  solradAnnual : ℚ
  annualSavings : ℚ
deriving DecidableEq, Repr

/-- `formatSolarProduction(pvWattsResponse)` of `pvWattsService.js`. -/
def formatSolarProduction (d : PVWattsData) : FormattedProduction :=
  { systemCapacity := d.inputs.system_capacity
    annualProduction := (jsRound d.outputs.ac_annual : ℚ)
    monthlyProduction := List.zipWith
      (fun m v => (m, (jsRound v : ℚ))) monthNames d.outputs.ac_monthly
    capacityFactor := d.outputs.capacity_factor
    solradAnnual := d.outputs.solrad_annual
    annualSavings := (jsRound (d.outputs.ac_annual * (12/100)) : ℚ) }

end PVWatts

namespace Srec

/-- An additional state incentive of `_getAdditionalIncentives`. -/
structure Incentive where
  name : String
  itype : String
  amount : ℤ
  details : String
deriving DecidableEq, Repr

/-- The SREC incentives payload of `_getMockSrecIncentives`. -/
structure SrecData where
  state : String
  system_capacity_kw : ℚ
  annual_production_kwh : ℚ
  srec_eligible : Bool
  srec_rate : ℚ
  estimated_annual_srec_value : ℤ
  srec_program_details : String
  additional_incentives : List Incentive
deriving DecidableEq, Repr

/-- The per-jurisdiction SREC rate table of `_getMockSrecIncentives`. -/
def srecEligibleStates : List (String × ℚ) :=
  [("MA", 275), ("NJ", 225), ("DC", 435), ("MD", 75),
   ("PA", 40), ("OH", 15), ("DE", 35), ("IL", 70)]

/-- `_getAdditionalIncentives(state, systemCapacity)` of
`srecTradeService.js`. -/
def getAdditionalIncentives (state : String) (systemCapacity : ℚ) : List Incentive :=
  if state = "CA" then
    [⟨"Self-Generation Incentive Program (SGIP)", "rebate",
      jsRound (systemCapacity * 500),
      "Incentive for battery storage systems paired with solar"⟩]
  else if state = "NY" then
    [⟨"NY-Sun Incentive Program", "rebate", jsRound (systemCapacity * 350),
      "Declining block incentive program for solar installations"⟩]
  else if state = "MA" then
    [⟨"SMART Program", "production-based", jsRound (systemCapacity * 1200),
      "Solar Massachusetts Renewable Target (SMART) Program"⟩]
  else if state = "TX" then
    [⟨"Austin Energy Rebate", "rebate", jsRound (systemCapacity * 2500),
      "Available only for Austin Energy customers"⟩]
  else []

/-- `_getMockSrecIncentives(state, systemCapacity, annualProduction)` of
`srecTradeService.js`. -/
def getMockSrecIncentives (state : String) (systemCapacity annualProduction : ℚ) :
    SrecData :=
  match (srecEligibleStates.lookup state) with
  | some rate =>
      { state
        system_capacity_kw := systemCapacity
        annual_production_kwh := annualProduction
        srec_eligible := true
        srec_rate := rate
        estimated_annual_srec_value := jsRound (annualProduction / 1000 * rate)
        srec_program_details := state ++ " SREC Program - Current market price: $"
          ++ toString rate ++ " per SREC"
        additional_incentives := getAdditionalIncentives state systemCapacity }
  | none =>
      { state
        system_capacity_kw := systemCapacity
        annual_production_kwh := annualProduction
        srec_eligible := false
        srec_rate := 0
        estimated_annual_srec_value := 0
        srec_program_details := "Not eligible for SREC incentives"
        additional_incentives := getAdditionalIncentives state systemCapacity }

/-- `getSrecIncentives({state, systemCapacity, annualProduction})` of
`srecTradeService.js`.  A missing state throws into the catch; an
unconfigured API key short-circuits to the mock; the catch returns
`success: true` (the source comments "so frontend does not show an error") with
the mock on defaults `systemCapacity || 10` / `annualProduction || 14000`. -/
def getSrecIncentives (state : String) (systemCapacity annualProduction : ℚ)
    (apiKeyConfigured : Bool) (live : Except String SrecData) :
    AdapterResult SrecData :=
  let catchResult : AdapterResult SrecData :=
    { success := true, error := none
      data := getMockSrecIncentives state
        (if systemCapacity = 0 then 10 else systemCapacity)
        (if annualProduction = 0 then 14000 else annualProduction) }
  if state = "" then catchResult
  else
    let capacity := if systemCapacity = 0 then 10 else systemCapacity
    let production := if annualProduction = 0 then capacity * 1400 else annualProduction
    if ¬apiKeyConfigured then
      { success := true, error := none
        data := getMockSrecIncentives state capacity production }
    else
      match live with
      | .ok d => { success := true, error := none, data := d }
      | .error _ => catchResult

end Srec

/-- The provenance tag attached to extraction results. -/
inductive DataSource where
  | openai
  | patternExtraction
  | fallbackGeneration
deriving DecidableEq, Repr

/-- JavaScript `if (!x) x = gen` on a numeric field: a missing or zero
extracted value is replaced by the generated one. -/
def fillNum (extracted : Option ℚ) (generated : ℚ) : ℚ :=
  match extracted with
  | some v => if v = 0 then generated else v
  | none => generated

/-- JavaScript `if (!x) x = gen` on a string field (empty strings are
falsy). -/
def fillStr (extracted : Option String) (generated : String) : String :=
  match extracted with
  | some s => if s = "" then generated else s
  | none => generated

/-- JavaScript `if (!x) x = gen` on an object-valued field: only `null`
is replaced. -/
def fillObj {α : Type} (extracted : Option α) (generated : α) : α :=
  extracted.getD generated

/-- A billing period; the parsed `Date` values are kept as opaque strings. -/
structure BillingPeriod where
  startDate : String
  endDate : String
deriving DecidableEq, Repr

namespace ImageProcessor

/-- The six field-extractor outputs on one text (each extractor is a pure
pattern match on the text, returning `null` when nothing matches). -/
structure BillFields where
  utilityCompany : Option String
  billingPeriod : Option BillingPeriod
  accountNumber : Option String
  totalAmount : Option ℚ
  energyUsage : Option ℚ
  rate : Option ℚ
deriving DecidableEq, Repr

/-- The record `parseUtilityBillImage` returns: the raw extractor outputs
plus the raw text.  The source sets no `dataSource` key on this record, so
the field is always `none` here. -/
structure BillData extends BillFields where
  dataSource : Option DataSource
  rawText : String
deriving DecidableEq, Repr

/-- `parseUtilityBillImage(imagePath)` of the image-processing module: OCR
the image (injected outcome), run the six extractors, and return whatever
they produced — `null` fields included, no synthesis, no provenance tag.
An OCR failure is rethrown with a wrapping message. -/
def parseUtilityBillImage (extract : String → BillFields)
    (ocr : Except String String) : Except String BillData :=
  match ocr with
  | .error msg => .error ("Failed to parse utility bill image: " ++ msg)
  | .ok text => .ok { toBillFields := extract text, dataSource := none, rawText := text }

end ImageProcessor

namespace PdfParser

/-- Extracted or AI-supplied panel details. -/
structure PanelDetails where
  panelType : Option String
  panelWattage : Option ℚ
  panelQuantity : Option ℚ
deriving DecidableEq, Repr

/-- Extracted or AI-supplied pricing details (possibly partial). -/
structure Pricing where
  totalCost : Option ℚ
  federalTaxCredit : Option ℚ
  stateRebates : Option ℚ
  netCost : Option ℚ
deriving DecidableEq, Repr

/-- Extracted or AI-supplied inverter details. -/
structure InverterDetails where
  itype : Option String
  model : Option String
  quantity : Option ℚ
deriving DecidableEq, Repr

/-- The structured object the OpenAI adapter returns for a proposal (any
field may be `null`, as the prompt instructs). -/
structure OpenAiProposal where
  systemSize : Option ℚ
  panelType : Option String
  panelWattage : Option ℚ
  panelQuantity : Option ℚ
  estimatedProduction : Option ℚ
  pricing : Option Pricing
deriving DecidableEq, Repr

/-- The five pattern-extractor outputs on the proposal text. -/
structure PatternProposal where
  systemSize : Option ℚ
  panelDetails : Option PanelDetails
  estimatedProduction : Option ℚ
  pricing : Option Pricing
  inverterDetails : Option InverterDetails
deriving DecidableEq, Repr

/-- The random draws consumed by the synthetic-data generator of
`parseProposalPdf` (each field is one `Math.random()` outcome, already
mapped into its documented range). -/
structure GenProposal where
  systemSize : ℚ
  panelType : String
  panelWattage : ℚ
  productionFactor : ℚ
  pricePerWatt : ℚ
  stateRebateFrac : ℚ
  inverterType : String
  inverterModel : String
deriving DecidableEq, Repr

/-- The record `parseProposalPdf` resolves with (document id, timing and
raw-text bookkeeping omitted). -/
structure ProposalExtract where
  systemSize : ℚ
  panelType : Option String
  panelWattage : Option ℚ
  panelQuantity : Option ℚ
  estimatedProduction : ℚ
  inverterDetails : InverterDetails
  pricing : Pricing
  dataSource : DataSource
  generatedFromError : Bool
deriving DecidableEq, Repr

/-- The fully generated pricing block of the fallback generator. -/
def genPricing (systemSize : ℚ) (gen : GenProposal) : Pricing :=
  let totalCost : ℚ := (jsRound (systemSize * 1000 * gen.pricePerWatt) : ℚ)
  let federalTaxCredit : ℚ := (jsRound (totalCost * (30/100)) : ℚ)
  let stateRebates : ℚ := (jsRound (totalCost * gen.stateRebateFrac) : ℚ)
  { totalCost := some totalCost
    federalTaxCredit := some federalTaxCredit
    stateRebates := some stateRebates
    netCost := some (totalCost - federalTaxCredit - stateRebates) }

/-- `parseProposalPdf(filePath)` of `pdfParser.js`.  `failed` is true when
text extraction (or anything else in the `try`) threw; `openAiData` is the
outcome of the AI adapter; `pat` bundles the pattern-extractor outputs on the
text; `gen` carries the random draws of the synthetic generator.  The
provenance tag is `openai` when the AI returned an object,
`pattern-extraction` on every other non-throwing path (even when every
field was synthesized), and `fallback-generation` only in the catch. -/
def parseProposalPdf (failed : Bool) (openAiData : Option OpenAiProposal)
    (pat : PatternProposal) (gen : GenProposal) : ProposalExtract :=
  if failed then
    let systemSize := gen.systemSize
    let panelQuantity : ℚ := (⌊systemSize * 1000 / gen.panelWattage⌋ : ℤ)
    { systemSize
      panelType := some gen.panelType
      panelWattage := some gen.panelWattage
      panelQuantity := some panelQuantity
      estimatedProduction := (jsRound (systemSize * gen.productionFactor) : ℚ)
      inverterDetails := { itype := some gen.inverterType
                           model := some gen.inverterModel
                           quantity := some ((systemSize / 5).ceil : ℚ) }
      pricing := genPricing systemSize gen
      dataSource := .fallbackGeneration
      generatedFromError := true }
  else
    let tierSystemSize : Option ℚ :=
      match openAiData with
      | some oa => oa.systemSize
      | none => pat.systemSize
    let tierPanelDetails : Option PanelDetails :=
      match openAiData with
      | some oa => some ⟨oa.panelType, oa.panelWattage, oa.panelQuantity⟩
      | none => pat.panelDetails
    let tierEstimatedProduction : Option ℚ :=
      match openAiData with
      | some oa => oa.estimatedProduction
      | none => pat.estimatedProduction
    let tierPricing : Option Pricing :=
      match openAiData with
      | some oa => oa.pricing
      | none => pat.pricing
    let tierInverter : Option InverterDetails :=
      match openAiData with
      | some oa => some (fillObj pat.inverterDetails
          { itype := some "Unknown", model := some "Unknown"
            quantity := some (((oa.systemSize.getD 0) / 5).ceil : ℚ) })
      | none => pat.inverterDetails
    let systemSize := fillNum tierSystemSize gen.systemSize
    let panelDetails := fillObj tierPanelDetails
      { panelType := some gen.panelType
        panelWattage := some gen.panelWattage
        panelQuantity := some ((⌊systemSize * 1000 / 380⌋ : ℤ) : ℚ) }
    let estimatedProduction :=
      fillNum tierEstimatedProduction (jsRound (systemSize * gen.productionFactor) : ℚ)
    let pricing := fillObj tierPricing (genPricing systemSize gen)
    let inverterDetails := fillObj tierInverter
      { itype := some gen.inverterType, model := some gen.inverterModel
        quantity := some ((systemSize / 5).ceil : ℚ) }
    { systemSize
      panelType := panelDetails.panelType
      panelWattage := panelDetails.panelWattage
      panelQuantity := panelDetails.panelQuantity
      estimatedProduction
      inverterDetails
      pricing
      dataSource := if openAiData.isSome then .openai else .patternExtraction
      generatedFromError := false }

end PdfParser

namespace BillParserAI

/-- The structured object the OpenAI adapter returns for a utility bill. -/
structure OpenAiBill where
  utilityCompany : Option String
  billingPeriod : Option BillingPeriod
  accountNumber : Option String
  totalAmount : Option ℚ
  energyUsage : Option ℚ
  rate : Option ℚ
deriving DecidableEq, Repr

/-- The random draws consumed by the synthetic generator of the AI variant
of `parseUtilityBillPdf` (company pick, 30-day billing window, account
number, usage in [500,1500], rate in [0.12,0.35]). -/
structure GenBill where
  utilityCompany : String
  billingPeriod : BillingPeriod
  accountNumber : String
  energyUsage : ℚ
  rate : ℚ
deriving DecidableEq, Repr

/-- The record the AI variant of `parseUtilityBillPdf` resolves with
(truncated raw text omitted). -/
structure BillExtract where
  utilityCompany : String
  billingPeriod : BillingPeriod
  accountNumber : String
  totalAmount : ℚ
  energyUsage : ℚ
  rate : ℚ
  monthlyUsage : Option (List (String × ℚ))
  dataSource : DataSource
  generatedFromError : Bool
deriving DecidableEq, Repr

/-- `parseUtilityBillPdf(filePath)` of the AI/pattern/fallback variant.
`failed` is true when text extraction threw; `openAiData` is the AI
outcome of the AI adapter; `pat` bundles the six pattern-extractor outputs; `gen`
carries the random draws.  The tag is `openai` when the AI returned an
object and `pattern-extraction` on every other non-throwing path — even
when every field was synthesized; `fallback-generation` appears only in
the catch. -/
def parseUtilityBillPdf (failed : Bool) (openAiData : Option OpenAiBill)
    (pat : ImageProcessor.BillFields) (gen : GenBill) : BillExtract :=
  if failed then
    let energyUsage := gen.energyUsage
    let rate := gen.rate
    { utilityCompany := gen.utilityCompany
      billingPeriod := gen.billingPeriod
      accountNumber := gen.accountNumber
      totalAmount := toFixed2 (energyUsage * rate)
      energyUsage
      rate
      monthlyUsage := UtilityBillParser.estimateMonthlyEnergyUsage (energyUsage * 12)
      dataSource := .fallbackGeneration
      generatedFromError := true }
  else
    let tierCompany : Option String :=
      match openAiData with
      | some oa => oa.utilityCompany
      | none => pat.utilityCompany
    let tierPeriod : Option BillingPeriod :=
      match openAiData with
      | some oa => oa.billingPeriod
      | none => pat.billingPeriod
    let tierAccount : Option String :=
      match openAiData with
      | some oa => oa.accountNumber
      | none => pat.accountNumber
    let tierTotal : Option ℚ :=
      match openAiData with
      | some oa => oa.totalAmount
      | none => pat.totalAmount
    let tierUsage : Option ℚ :=
      match openAiData with
      | some oa => oa.energyUsage
      | none => pat.energyUsage
    let tierRate : Option ℚ :=
      match openAiData with
      | some oa => oa.rate
      | none => pat.rate
    let energyUsage := fillNum tierUsage gen.energyUsage
    let rate := fillNum tierRate gen.rate
    { utilityCompany := fillStr tierCompany gen.utilityCompany
      billingPeriod := fillObj tierPeriod gen.billingPeriod
      accountNumber := fillStr tierAccount gen.accountNumber
      totalAmount := fillNum tierTotal (toFixed2 (energyUsage * rate))
      energyUsage
      rate
      monthlyUsage := UtilityBillParser.estimateMonthlyEnergyUsage (energyUsage * 12)
      dataSource := if openAiData.isSome then .openai else .patternExtraction
      generatedFromError := false }

end BillParserAI

/-- Status of an uploaded document record. -/
inductive DocStatus where
  | pending
  | processed
  | error
deriving DecidableEq, Repr

/-- Status of a stored analysis result. -/
inductive RStatus where
  | pending
  | completed
  | error
deriving DecidableEq, Repr

/-- A stored `Result` document, reduced to the lifecycle-relevant fields
(the computed payload is modelled separately by the pure functions). -/
structure ResultDoc where
  user : ℕ
  proposal : ℕ
  utilityBill : ℕ
  status : RStatus
  processingErrors : List String
deriving DecidableEq, Repr

namespace Analysis7

/-- The `solarProduction` sub-structure used by the part_007 variant. -/
structure SolarProductionData where
  annualProduction : ℚ
  monthlyProduction : List (String × ℚ)
deriving DecidableEq, Repr

/-- The part_007 copy of the fixed 12-value seasonal production
distribution (`_generateSolarProductionData`). -/
def monthlyDistribution : List ℚ :=
  [63/1000, 74/1000, 87/1000, 97/1000, 102/1000, 101/1000,
   102/1000, 99/1000, 93/1000, 80/1000, 65/1000, 57/1000]

/-- One entry of the part_007 monthly breakdown. -/
structure MonthEntry where
  month : String
  solarProduction : ℚ
  gridConsumption : ℚ
  utilityBillWithSolar : ℚ
  utilityBillWithoutSolar : ℚ
  savings : ℚ
deriving DecidableEq, Repr

/-- `_generateMonthlyBreakdown(solarProduction, monthlyUsage,
electricityRate)` of the part_007 variant: per month,
`production = solarProduction?.monthlyProduction?.[month] || 0`,
`usage = monthlyUsage[month] || 0`, grid consumption clamped at zero,
bills and savings rounded to cents. -/
def generateMonthlyBreakdown (solarProduction : Option SolarProductionData)
    (monthlyUsage : List (String × ℚ)) (electricityRate : ℚ) : List MonthEntry :=
  monthNames.map fun month =>
    let usage := (monthlyUsage.lookup month).getD 0
    let production :=
      ((solarProduction.bind fun sp => sp.monthlyProduction.lookup month)).getD 0
    let gridConsumption := max 0 (usage - production)
    let utilityBillWithoutSolar := toFixed2 (usage * electricityRate)
    let utilityBillWithSolar := toFixed2 (gridConsumption * electricityRate)
    let savings := toFixed2 (utilityBillWithoutSolar - utilityBillWithSolar)
    { month, solarProduction := production, gridConsumption
      utilityBillWithSolar, utilityBillWithoutSolar, savings }

/-- The fixed 2.5 % electricity-price inflation assumption. -/
def inflationRate : ℚ := 25/1000

/-- The `solarSavings` block of the part_007 variant. -/
structure SolarSavings where
  monthlySavings : ℚ
  annualSavings : ℚ
  twentyYearSavings : ℤ
  paybackPeriod : JsNum
deriving DecidableEq, Repr

/-- `_calculateSolarSavings(monthlyBreakdown, systemCost)` of the part_007
variant: `annualSavings` is the plain sum of the monthly savings; the
20-year figure compounds inflation over years 0–19 and is rounded to the
dollar; `paybackPeriod` is `parseFloat((systemCost/annualSavings).toFixed(1))`
with no guard on the denominator. -/
def calculateSolarSavings (monthlyBreakdown : List MonthEntry) (systemCost : ℚ) :
    SolarSavings :=
  let annualSavings := (monthlyBreakdown.map (·.savings)).sum
  { monthlySavings := toFixed2 (annualSavings / 12)
    annualSavings
    twentyYearSavings :=
      jsRound (∑ year ∈ Finset.range 20, annualSavings * (1 + inflationRate) ^ year)
    paybackPeriod := jsToFixed1 (jsDiv systemCost annualSavings) }

/-- A stored `UtilityBill` document (part_007 `processUtilityBill`; the
part_008 copy is identical). -/
structure UtilityBillRecord where
  fileType : String
  extractedData : Option ImageProcessor.BillData
  status : DocStatus
  processingErrors : List String
deriving DecidableEq, Repr

/-- `processUtilityBill(utilityBillFile, userId)`: parse by file type
(outcome injected), then store the record as `processed` with whatever the
parser returned, or as `error` with the message when the parser threw. -/
def processUtilityBill (isPdf : Bool)
    (parsed : Except String ImageProcessor.BillData) : UtilityBillRecord :=
  let fileType := if isPdf then "pdf" else "image"
  match parsed with
  | .ok extractedData =>
      { fileType, extractedData := some extractedData
        status := .processed, processingErrors := [] }
  | .error msg =>
      { fileType, extractedData := none
        status := .error, processingErrors := [msg] }

/-- The lifecycle skeleton of part_007 `generateResults`: load checks, the
pending placeholder, an injected outcome for the computation of steps 3–7,
and the final update.  The part_007 `catch` only logs and returns
`{success: false}` — it performs no store update at all. -/
def generateResults (store : List ResultDoc) (userId proposalId utilityBillId : ℕ)
    (proposalFound utilityBillFound : Bool) (compute : Except String Unit) :
    List ResultDoc × Bool :=
  if ¬(proposalFound ∧ utilityBillFound) then (store, false)
  else
    match compute with
    | .ok _ =>
        (store ++ [⟨userId, proposalId, utilityBillId, .completed, []⟩], true)
    | .error _ =>
        (store ++ [⟨userId, proposalId, utilityBillId, .pending, []⟩], false)

end Analysis7

namespace Analysis8

/-- `Result.findOneAndUpdate` on the query `(user, proposal, utilityBill)`
with update `status = error, processingErrors = [msg]`: update the first
stored record matching the query. -/
def findOneAndUpdateError : List ResultDoc → ℕ → ℕ → ℕ → String → List ResultDoc
  | [], _, _, _, _ => []
  | r :: rest, u, p, b, msg =>
      if r.user = u ∧ r.proposal = p ∧ r.utilityBill = b then
        { r with status := .error, processingErrors := [msg] } :: rest
      else r :: findOneAndUpdateError rest u p b msg

/-- The lifecycle skeleton of part_008 `generateResults`.  Its `catch`
(guarded by the truthiness of the three id arguments, modelled as `≠ 0`)
flips the first record matching `(user, proposal, utilityBill)` to `error`
with the message recorded; the placeholder is never deleted. -/
def generateResults (store : List ResultDoc) (userId proposalId utilityBillId : ℕ)
    (proposalFound utilityBillFound : Bool) (compute : Except String Unit) :
    List ResultDoc × Bool :=
  let catchUpdate := fun (msg : String) (s : List ResultDoc) =>
    if userId ≠ 0 ∧ proposalId ≠ 0 ∧ utilityBillId ≠ 0 then
      findOneAndUpdateError s userId proposalId utilityBillId msg
    else s
  if ¬(proposalFound ∧ utilityBillFound) then
    (catchUpdate "Proposal or utility bill not found" store, false)
  else
    match compute with
    | .ok _ =>
        (store ++ [⟨userId, proposalId, utilityBillId, .completed, []⟩], true)
    | .error msg =>
        (catchUpdate msg
          (store ++ [⟨userId, proposalId, utilityBillId, .pending, []⟩]), false)

/-- One entry of the part_008 monthly breakdown (bills and savings come
from the nullable helpers of `utilityBillParser.js`). -/
structure MonthEntry where
  month : String
  solarProduction : ℚ
  gridConsumption : ℚ
  utilityBillWithSolar : Option ℚ
  utilityBillWithoutSolar : Option ℚ
  savings : Option ℚ
deriving DecidableEq, Repr

/-- The inline monthly-breakdown map of part_008 `generateResults`
(lines 235–250): iterate the months of `monthlyUsage`, look the month up in
`monthlyProduction`, and delegate to the `utilityBillParser` helpers. -/
def monthlyBreakdown (monthlyUsage monthlyProduction : List (String × ℚ))
    (electricityRate : ℚ) : List MonthEntry :=
  monthlyUsage.map fun mu =>
    let month := mu.1
    let usage := mu.2
    let production := (monthlyProduction.lookup month).getD 0
    let originalBill := UtilityBillParser.calculateUtilityBill usage electricityRate
    let newBill :=
      UtilityBillParser.calculateUtilityBillWithSolar usage production electricityRate
    { month, solarProduction := production
      gridConsumption := max 0 (usage - production)
      utilityBillWithSolar := newBill
      utilityBillWithoutSolar := originalBill
      savings := UtilityBillParser.calculateSavings originalBill newBill }

/-- The `solarSavings` block of the part_008 variant. -/
structure SolarSavings where
  monthlySavings : ℚ
  annualSavings : ℚ
  twentyYearSavings : ℚ
  paybackPeriod : JsNum
deriving DecidableEq, Repr

/-- The aggregate savings metrics of part_008 (lines 253–270):
`annualSavings` from the annual totals, `twentyYearSavings` as a plain
`annualSavings * 20` (the source comments "simple calculation, not
accounting for inflation"), and a payback guarded only on
`systemCost > 0`. -/
def solarSavingsOf (energyUsage electricityRate annualProduction systemCost : ℚ) :
    SolarSavings :=
  let annualBillWithoutSolar := energyUsage * 12 * electricityRate
  let annualBillWithSolar := max 0 ((energyUsage * 12 - annualProduction) * electricityRate)
  let annualSavings := annualBillWithoutSolar - annualBillWithSolar
  { monthlySavings := annualSavings / 12
    annualSavings
    twentyYearSavings := annualSavings * 20
    paybackPeriod := if 0 < systemCost then jsDiv systemCost annualSavings else .num 0 }

/-- The savings computation of part_008 `generateResults` (lines 217–272):
requires truthy usage and rate, resolves the annual production from the
estimate of the proposal or the PVWatts result, derives monthly series, and
produces the breakdown plus aggregate metrics (`none`/`[]` when the inputs
are insufficient, exactly as the source leaves `solarSavings = null` and
`monthlyBreakdown = []`). -/
def savingsBlock (energyUsage electricityRate estimatedProduction : Option ℚ)
    (solarProduction : Option PVWatts.FormattedProduction) (netCost : Option ℚ) :
    Option SolarSavings × List MonthEntry :=
  let u := energyUsage.getD 0
  let r := electricityRate.getD 0
  if u = 0 ∨ r = 0 then (none, [])
  else
    let annualProduction : ℚ :=
      match estimatedProduction with
      | some p => if p = 0 then (solarProduction.map (·.annualProduction)).getD 0 else p
      | none => (solarProduction.map (·.annualProduction)).getD 0
    if annualProduction = 0 then (none, [])
    else
      let monthlyUsage := UtilityBillParser.estimateMonthlyEnergyUsage (u * 12)
      let monthlyProduction : Option (List (String × ℚ)) :=
        match solarProduction with
        | some sp => some sp.monthlyProduction
        | none => UtilityBillParser.estimateMonthlyEnergyUsage annualProduction
      let breakdown :=
        match monthlyUsage, monthlyProduction with
        | some mu, some mp => monthlyBreakdown mu mp r
        | _, _ => []
      (some (solarSavingsOf u r annualProduction (netCost.getD 0)), breakdown)

end Analysis8

/-! Concrete scenario shared by the C3 and C6 counterexamples: a 10 kW
system whose production comes from the PVWatts mock, a proposal with
estimatedProduction 14000 kWh and netCost 30000, a bill with energyUsage
1000 kWh a month and rate 0.15 $/kWh. -/

/-- The PVWatts mock production for a 10 kW system, formatted the way the
analysis service stores it. -/
def c3SolarProduction : PVWatts.FormattedProduction :=
  PVWatts.formatSolarProduction (PVWatts.getMockSolarProduction 10)

/-- The twelve-month usage map for 12000 kWh a year under the residential
distribution. -/
def c3MonthlyUsage : List (String × ℚ) :=
  [("January", 1200), ("February", 1080), ("March", 960), ("April", 840),
   ("May", 840), ("June", 960), ("July", 1200), ("August", 1200),
   ("September", 960), ("October", 840), ("November", 960), ("December", 960)]

/-- The twelve-month production map of the PVWatts mock at 10 kW. -/
def c3MonthlyProduction : List (String × ℚ) :=
  [("January", 882), ("February", 1036), ("March", 1218), ("April", 1358),
   ("May", 1428), ("June", 1414), ("July", 1428), ("August", 1386),
   ("September", 1302), ("October", 1120), ("November", 910), ("December", 798)]

/-- The savings block and monthly breakdown the part_008 variant stores on
the completed result in the shared scenario. -/
def c3Result : Option Analysis8.SolarSavings × List Analysis8.MonthEntry :=
  Analysis8.savingsBlock (some 1000) (some (3/20)) (some 14000)
    (some c3SolarProduction) (some 30000)

/-- An extractor bundle for which every field extractor returns `null`
(the all-unrecognizable-text scenario of C7). -/
def c7Extract : String → ImageProcessor.BillFields :=
  fun _ => ⟨none, none, none, none, none, none⟩

/-- The stored utility-bill record for an image whose OCR text yields no
recognizable field. -/
def c7Record : Analysis7.UtilityBillRecord :=
  Analysis7.processUtilityBill false
    (ImageProcessor.parseUtilityBillImage c7Extract (.ok "scanned bill image text"))

/-- Full evaluation of the shared C3/C6 scenario: the stored aggregate
metrics and the stored monthly breakdown. -/
theorem c3Result_eval : c3Result =
    (some ⟨150, 1800, 36000, JsNum.num (50/3)⟩,
     [⟨"January", 882, 318, some (477/10), some 180, some (1323/10)⟩,
      ⟨"February", 1036, 44, some (33/5), some 162, some (777/5)⟩,
      ⟨"March", 1218, 0, some 0, some 144, some 144⟩,
      ⟨"April", 1358, 0, some 0, some 126, some 126⟩,
      ⟨"May", 1428, 0, some 0, some 126, some 126⟩,
      ⟨"June", 1414, 0, some 0, some 144, some 144⟩,
      ⟨"July", 1428, 0, some 0, some 180, some 180⟩,
      ⟨"August", 1386, 0, some 0, some 180, some 180⟩,
      ⟨"September", 1302, 0, some 0, some 144, some 144⟩,
      ⟨"October", 1120, 0, some 0, some 126, some 126⟩,
      ⟨"November", 910, 50, some (15/2), some 144, some (273/2)⟩,
      ⟨"December", 798, 162, some (243/10), some 144, some (1197/10)⟩]) := by
  simp [c3Result, Analysis8.savingsBlock, Analysis8.solarSavingsOf,
    Analysis8.monthlyBreakdown, c3SolarProduction, PVWatts.formatSolarProduction,
    PVWatts.getMockSolarProduction, PVWatts.monthlyDistribution, monthNames,
    UtilityBillParser.estimateMonthlyEnergyUsage, UtilityBillParser.usageDistribution,
    UtilityBillParser.calculateUtilityBill, UtilityBillParser.calculateUtilityBillWithSolar,
    UtilityBillParser.calculateSavings, List.lookup, toFixed2, toFixedRound,
    jsRound, jsDiv, max_def]
  norm_num [Int.floor_eq_iff]

/-- Claim C1, counterexample: a generated result whose twelve monthly
savings are all zero (an empty usage map is enough) has
`annualSavings = 0`, and its `paybackPeriod` is `Infinity` — not
undefined or null — because `systemCost / annualSavings` is unguarded. -/
theorem C1_counterexample :
    (Analysis7.calculateSolarSavings
      (Analysis7.generateMonthlyBreakdown none [] (3/20)) 30000).annualSavings = 0 ∧
    (Analysis7.calculateSolarSavings
      (Analysis7.generateMonthlyBreakdown none [] (3/20)) 30000).paybackPeriod =
        JsNum.posInf := by
  have hb : Analysis7.generateMonthlyBreakdown none [] (3/20) =
      List.map (fun month => ⟨month, 0, 0, 0, 0, 0⟩) monthNames := by
    simp [Analysis7.generateMonthlyBreakdown, toFixed2, toFixedRound, jsRound]
    norm_num [Int.floor_eq_iff]
  have hsum : ((Analysis7.generateMonthlyBreakdown none [] (3/20)).map
      Analysis7.MonthEntry.savings).sum = 0 := by
    rw [hb]; simp [monthNames]
  constructor
  · exact hsum
  · show jsToFixed1 (jsDiv 30000 (((Analysis7.generateMonthlyBreakdown none []
      (3/20)).map Analysis7.MonthEntry.savings).sum)) = JsNum.posInf
    rw [hsum]
    norm_num [jsDiv, jsToFixed1]

/-- Claim C1, amended: the division is not guarded — in the part_007
variant, whenever the computed `annualSavings` is zero and the net system
cost is positive, `paybackPeriod` is reported as `Infinity` (a JavaScript
number, never undefined or null). -/
theorem C1_amended (bd : List Analysis7.MonthEntry) (cost : ℚ)
    (hA : (Analysis7.calculateSolarSavings bd cost).annualSavings = 0)
    (hc : 0 < cost) :
    (Analysis7.calculateSolarSavings bd cost).paybackPeriod = JsNum.posInf := by
  have h : ((bd.map Analysis7.MonthEntry.savings)).sum = 0 := hA
  show jsToFixed1 (jsDiv cost ((bd.map Analysis7.MonthEntry.savings).sum)) = JsNum.posInf
  rw [h]
  simp [jsDiv, jsToFixed1, hc, ne_of_gt hc]

/-- Witness for C1_amended at the empty breakdown and cost 1. -/
theorem C1_amended_witness :
    (Analysis7.calculateSolarSavings [] 1).annualSavings = 0 ∧
    (Analysis7.calculateSolarSavings [] 1).paybackPeriod = JsNum.posInf :=
  ⟨rfl, C1_amended [] 1 rfl (by norm_num)⟩

/-- Claim C2, counterexample: in the part_007 variant, an exception thrown
after the pending record was created leaves the stored record at status
`pending` with an empty error list — the status is never flipped to
`error`.  (The placeholder is retained, as the claim says.) -/
theorem C2_counterexample :
    Analysis7.generateResults [] 1 2 3 true true (.error "boom") =
      ([⟨1, 2, 3, RStatus.pending, []⟩], false) ∧
    RStatus.pending ≠ RStatus.error := by
  constructor
  · rfl
  · simp

/-- `findOneAndUpdateError` on a store whose only record matching the query
is the final one updates exactly that record. -/
theorem findOneAndUpdateError_no_prior_match (store : List ResultDoc)
    (u p b : ℕ) (msg : String) (rec : ResultDoc)
    (hrec : rec.user = u ∧ rec.proposal = p ∧ rec.utilityBill = b)
    (hnew : ∀ r ∈ store, ¬(r.user = u ∧ r.proposal = p ∧ r.utilityBill = b)) :
    Analysis8.findOneAndUpdateError (store ++ [rec]) u p b msg =
      store ++ [{ rec with status := .error, processingErrors := [msg] }] := by
  induction store with
  | nil => simp [Analysis8.findOneAndUpdateError, hrec]
  | cons head tail ih =>
      have hh := hnew head (by simp)
      simp only [List.cons_append, Analysis8.findOneAndUpdateError, if_neg hh]
      exact congrArg (List.cons head) (ih (fun r hr => hnew r (by simp [hr])))

/-- Claim C2, amended: in the part_008 variant, when no earlier stored
record matches the `(user, proposal, utilityBill)` triple, an exception
after the pending record was created flips that record to `error` with the
triggering message recorded, and the placeholder is retained — the store
keeps all prior records plus the (updated) new one. -/
theorem C2_amended (store : List ResultDoc) (u p b : ℕ) (msg : String)
    (hu : u ≠ 0) (hp : p ≠ 0) (hb : b ≠ 0)
    (hnew : ∀ r ∈ store, ¬(r.user = u ∧ r.proposal = p ∧ r.utilityBill = b)) :
    Analysis8.generateResults store u p b true true (.error msg) =
      (store ++ [⟨u, p, b, RStatus.error, [msg]⟩], false) := by
  show (if u ≠ 0 ∧ p ≠ 0 ∧ b ≠ 0
        then Analysis8.findOneAndUpdateError
          (store ++ [⟨u, p, b, RStatus.pending, []⟩]) u p b msg
        else store ++ [⟨u, p, b, RStatus.pending, []⟩], false) =
      (store ++ [⟨u, p, b, RStatus.error, [msg]⟩], false)
  rw [if_pos ⟨hu, hp, hb⟩,
    findOneAndUpdateError_no_prior_match store u p b msg _ ⟨rfl, rfl, rfl⟩ hnew]

/-- Witness for C2_amended on an empty store. -/
theorem C2_amended_witness :
    Analysis8.generateResults [] 1 2 3 true true (.error "lost connection") =
      ([⟨1, 2, 3, RStatus.error, ["lost connection"]⟩], false) := by
  have h := C2_amended [] 1 2 3 "lost connection" (by norm_num) (by norm_num)
    (by norm_num) (by simp)
  simpa using h

/-- Claim C3, counterexample: in the part_008 variant the stored
`annualSavings` is 1800, while the twelve stored monthly savings sum to
1713.9; the difference (86.10) far exceeds the claimed ±0.01 tolerance. -/
theorem C3_counterexample :
    c3Result.1 = some ⟨150, 1800, 36000, JsNum.num (50/3)⟩ ∧
    List.map Analysis8.MonthEntry.savings c3Result.2 =
      [some (1323/10), some (777/5), some 144, some 126, some 126, some 144,
       some 180, some 180, some 144, some 126, some (273/2), some (1197/10)] ∧
    (1323/10 + 777/5 + 144 + 126 + 126 + 144 + 180 + 180 + 144 + 126 + 273/2
      + 1197/10 : ℚ) = 17139/10 ∧
    ¬(|(1800 : ℚ) - 17139/10| ≤ 1/100) := by
  refine ⟨?_, ?_, by norm_num, by rw [abs_of_nonneg (by norm_num)]; norm_num⟩
  · simp [c3Result_eval]
  · simp [c3Result_eval]

/-- Claim C3, amended: in the part_007 variant `annualSavings` equals the
sum of the monthly breakdown savings exactly (so certainly within ±0.01);
in the part_008 variant `annualSavings` is instead computed from the annual
totals as `usage*12*rate - max(0, (usage*12 - annualProduction)*rate)`, and
can differ from the monthly sum by far more than ±0.01. -/
theorem C3_amended (bd : List Analysis7.MonthEntry) (cost u r p c : ℚ) :
    |(Analysis7.calculateSolarSavings bd cost).annualSavings -
      (List.map Analysis7.MonthEntry.savings bd).sum| ≤ 1/100 ∧
    (Analysis8.solarSavingsOf u r p c).annualSavings =
      u * 12 * r - max 0 ((u * 12 - p) * r) := by
  constructor
  · have h : (Analysis7.calculateSolarSavings bd cost).annualSavings =
        (List.map Analysis7.MonthEntry.savings bd).sum := rfl
    rw [h, sub_self, abs_zero]
    norm_num
  · rfl

/-- Claim C4, counterexample: when the live Google Sunroof call fails, the
roof-potential adapter returns `success: false` (with the mock payload
attached) — not the success response the claim asserts; its callers branch
on `success` and so do see the failure. -/
theorem C4_counterexample :
    (Sunroof.getSolarPotential 40 (-74) true (.error "timeout")).success = false ∧
    (Sunroof.getSolarPotential 40 (-74) true (.error "timeout")).data =
      Sunroof.getMockSolarPotential 40 (-74) := by
  constructor
  · simp [Sunroof.getSolarPotential]
  · simp [Sunroof.getSolarPotential]

/-- Claim C4, amended: the production-simulation (PVWatts) and
incentive-lookup (SREC Trade) adapters do mask every live failure with
`success: true` and mock data in the live schema; the roof-potential
(Google Sunroof) adapter instead reports `success: false` (mock data
attached but ignored by callers). -/
theorem C4_amended (msg : String) (cap lat lon sc ap : ℚ) (st : String) :
    (PVWatts.getSolarProduction cap lat lon true (.error msg)).success = true ∧
    (PVWatts.getSolarProduction cap lat lon true (.error msg)).data =
      PVWatts.getMockSolarProduction cap ∧
    (Srec.getSrecIncentives st sc ap true (.error msg)).success = true ∧
    (Srec.getSrecIncentives st sc ap true (.error msg)).data =
      Srec.getMockSrecIncentives st (if sc = 0 then 10 else sc)
        (if ap = 0 then 14000 else ap) ∧
    (Sunroof.getSolarPotential lat lon true (.error msg)).success = false := by
  refine ⟨?_, ?_, ?_, ?_, ?_⟩ <;>
    simp only [PVWatts.getSolarProduction, Srec.getSrecIncentives,
      Sunroof.getSolarPotential] <;>
    split_ifs <;> simp_all

/-- Claim C5, counterexample: with no AI data and every pattern extractor
returning `null` (the primary field systemSize included), the proposal
record carries the synthesized system size (here 8 kW, the injected random
draw) yet is tagged `pattern-extraction`, not `fallback-generation`. -/
theorem C5_counterexample :
    (PdfParser.parseProposalPdf false none
      ⟨none, none, none, none, none⟩
      ⟨8, "LG", 380, 1400, 3, 1/20, "SMA", "Sunny Boy"⟩).dataSource =
      DataSource.patternExtraction ∧
    (PdfParser.parseProposalPdf false none
      ⟨none, none, none, none, none⟩
      ⟨8, "LG", 380, 1400, 3, 1/20, "SMA", "Sunny Boy"⟩).systemSize = 8 ∧
    DataSource.patternExtraction ≠ DataSource.fallbackGeneration := by
  refine ⟨rfl, rfl, by simp⟩

/-- Claim C5, amended: both parsers attach exactly one tag from the set,
but the tag records only which branch ran — `openai` when the AI adapter
returned an object, `pattern-extraction` on every other non-throwing path
(regardless of how many fields, the primary one included, were
synthesized), and `fallback-generation` only when text extraction threw. -/
theorem C5_amended (failed : Bool) (oa : Option PdfParser.OpenAiProposal)
    (pat : PdfParser.PatternProposal) (gen : PdfParser.GenProposal)
    (oab : Option BillParserAI.OpenAiBill) (patb : ImageProcessor.BillFields)
    (genb : BillParserAI.GenBill) :
    (PdfParser.parseProposalPdf failed oa pat gen).dataSource =
      (if failed then DataSource.fallbackGeneration
       else if oa.isSome then DataSource.openai else DataSource.patternExtraction) ∧
    (BillParserAI.parseUtilityBillPdf failed oab patb genb).dataSource =
      (if failed then DataSource.fallbackGeneration
       else if oab.isSome then DataSource.openai else DataSource.patternExtraction) := by
  constructor
  · cases failed <;> cases oa <;> rfl
  · cases failed <;> cases oab <;> rfl

/-- Claim C6, counterexample: in the part_008 variant the completed result
has `annualSavings = 1800 > 0` and `twentyYearSavings = 36000`, which
equals — and therefore does not strictly exceed — `annualSavings * 20`. -/
theorem C6_counterexample :
    c3Result.1 = some ⟨150, 1800, 36000, JsNum.num (50/3)⟩ ∧
    (0 : ℚ) < 1800 ∧ ¬((1800 : ℚ) * 20 < 36000) := by
  refine ⟨by simp [c3Result_eval], by norm_num, by norm_num⟩

/-- Claim C6, amended: in the part_007 variant (which does compound the
2.5 % inflation) `twentyYearSavings` strictly exceeds `annualSavings * 20`
whenever `annualSavings` is at least one dollar (dollar rounding can break
strictness below that); in the part_008 variant `twentyYearSavings` is
exactly `annualSavings * 20` and never exceeds it. -/
theorem C6_amended (bd : List Analysis7.MonthEntry) (cost : ℚ)
    (h : 1 ≤ (Analysis7.calculateSolarSavings bd cost).annualSavings) :
    20 * (Analysis7.calculateSolarSavings bd cost).annualSavings <
      ((Analysis7.calculateSolarSavings bd cost).twentyYearSavings : ℚ) ∧
    ∀ u r p c, (Analysis8.solarSavingsOf u r p c).twentyYearSavings =
      (Analysis8.solarSavingsOf u r p c).annualSavings * 20 := by
  constructor
  · have ha : 1 ≤ (List.map Analysis7.MonthEntry.savings bd).sum := h
    set a := (List.map Analysis7.MonthEntry.savings bd).sum with hadef
    show 20 * a <
      ((jsRound (∑ year ∈ Finset.range 20,
        a * (1 + Analysis7.inflationRate) ^ year) : ℤ) : ℚ)
    rw [show (∑ year ∈ Finset.range 20, a * (1 + Analysis7.inflationRate) ^ year)
        = a * (∑ year ∈ Finset.range 20, (1 + Analysis7.inflationRate) ^ year) from
      (Finset.mul_sum _ _ _).symm]
    set S := ∑ year ∈ Finset.range 20, (1 + Analysis7.inflationRate) ^ year with hS
    have hSval : (25 : ℚ) ≤ S := by
      rw [hS]
      simp only [Finset.sum_range_succ, Finset.sum_range_zero, Analysis7.inflationRate]
      norm_num
    have hfloor : a * S - 1/2 < ((jsRound (a * S) : ℤ) : ℚ) := by
      unfold jsRound
      have hlt := Int.sub_one_lt_floor (a * S + 1/2)
      push_cast at hlt ⊢
      linarith
    have hslack : 20 * a + 1/2 ≤ a * S - 1/2 := by
      have h20 : (0 : ℚ) ≤ S - 20 := by linarith
      have hmul : 1 * (S - 20) ≤ a * (S - 20) :=
        mul_le_mul_of_nonneg_right ha h20
      nlinarith
    linarith
  · intro u r p c
    rfl

/-- Witness for C6_amended at a single-month breakdown saving 150. -/
theorem C6_amended_witness :
    (1 : ℚ) ≤ (Analysis7.calculateSolarSavings
      [⟨"January", 0, 0, 0, 0, 150⟩] 100).annualSavings ∧
    (20 * (Analysis7.calculateSolarSavings
        [⟨"January", 0, 0, 0, 0, 150⟩] 100).annualSavings <
      ((Analysis7.calculateSolarSavings
        [⟨"January", 0, 0, 0, 0, 150⟩] 100).twentyYearSavings : ℚ) ∧
     ∀ u r p c, (Analysis8.solarSavingsOf u r p c).twentyYearSavings =
       (Analysis8.solarSavingsOf u r p c).annualSavings * 20) :=
  ⟨by norm_num [Analysis7.calculateSolarSavings],
   C6_amended [⟨"January", 0, 0, 0, 0, 150⟩] 100
     (by norm_num [Analysis7.calculateSolarSavings])⟩

/-- Claim C7, counterexample: an uploaded bill image whose OCR text yields
zero recognizable fields is stored with status `processed` (the true part
of the claim), but every extracted field remains `null` — nothing is
synthesized — and the record carries no `dataSource` tag at all, in
particular not `fallback-generation`. -/
theorem C7_counterexample :
    c7Record.status = DocStatus.processed ∧
    c7Record.extractedData =
      some { utilityCompany := none, billingPeriod := none, accountNumber := none
             totalAmount := none, energyUsage := none, rate := none
             dataSource := none, rawText := "scanned bill image text" } := by
  exact ⟨rfl, rfl⟩

/-- Claim C7, amended: whenever OCR succeeds, the stored record reaches
status `processed` no matter how few fields were recognized, and its
extracted data is exactly what the extractors returned — `null` fields
kept, no synthesis, no provenance tag (the image path, unlike the AI pdf
path, has no fallback-generation tier). -/
theorem C7_amended (extract : String → ImageProcessor.BillFields) (text : String) :
    (Analysis7.processUtilityBill false
      (ImageProcessor.parseUtilityBillImage extract (.ok text))).status =
        DocStatus.processed ∧
    (Analysis7.processUtilityBill false
      (ImageProcessor.parseUtilityBillImage extract (.ok text))).extractedData =
        some { toBillFields := extract text, dataSource := none, rawText := text } :=
  ⟨rfl, rfl⟩

/-- Claim C8, counterexample: the fixed 12-value seasonal distribution does
not sum to 1, and consequently the mock monthly production values do not
partition the annual estimate (for a 10 kW system they sum to 14280
against an annual 14000). -/
theorem C8_counterexample :
    PVWatts.monthlyDistribution.sum ≠ 1 ∧
    (PVWatts.getMockSolarProduction 10).outputs.ac_monthly.sum ≠
      (PVWatts.getMockSolarProduction 10).outputs.ac_annual := by
  constructor
  · simp [PVWatts.monthlyDistribution]
    norm_num
  · simp [PVWatts.getMockSolarProduction, PVWatts.monthlyDistribution, jsRound]
    norm_num [Int.floor_eq_iff]

/-- Claim C8, amended: the distribution (identical in `pvWattsService.js`
and the part_007 analysis service) sums to 1.02, so the generated monthly
values overshoot the 1400 kWh-per-kW annual estimate by two percent: at
10 kW the monthly values sum to 14280 against ac_annual = 14000. -/
theorem C8_amended :
    PVWatts.monthlyDistribution.sum = 51/50 ∧
    Analysis7.monthlyDistribution.sum = 51/50 ∧
    (PVWatts.getMockSolarProduction 10).outputs.ac_annual = 14000 ∧
    (PVWatts.getMockSolarProduction 10).outputs.ac_monthly.sum = 14280 := by
  refine ⟨?_, ?_, ?_, ?_⟩ <;>
    simp [PVWatts.monthlyDistribution, Analysis7.monthlyDistribution,
      PVWatts.getMockSolarProduction, jsRound] <;>
    norm_num [Int.floor_eq_iff]

/-- Claim C9 (confirmed): in both variants of the monthly breakdown, every
generated entry has a non-negative gridConsumption, for all usage maps,
production maps and rates — the value is clamped with `max(0, usage -
production)`. -/
theorem C9_grid_nonneg (sp : Option Analysis7.SolarProductionData)
    (mu mp mu8 : List (String × ℚ)) (rate rate8 : ℚ) :
    (∀ e ∈ Analysis7.generateMonthlyBreakdown sp mu rate, 0 ≤ e.gridConsumption) ∧
    (∀ e ∈ Analysis8.monthlyBreakdown mu8 mp rate8, 0 ≤ e.gridConsumption) := by
  constructor
  · intro e he
    simp only [Analysis7.generateMonthlyBreakdown, List.mem_map] at he
    obtain ⟨m, -, rfl⟩ := he
    exact le_max_left 0 _
  · intro e he
    simp only [Analysis8.monthlyBreakdown, List.mem_map] at he
    obtain ⟨x, -, rfl⟩ := he
    exact le_max_left 0 _

/-- Witness for C9_grid_nonneg at the January entry of an all-empty
breakdown. -/
theorem C9_grid_nonneg_witness :
    0 ≤ (Analysis7.MonthEntry.mk "January" 0 0 0 0 0).gridConsumption := by
  refine (C9_grid_nonneg none [] [] [] 0 0).1 _ ?_
  have hb : Analysis7.generateMonthlyBreakdown none [] 0 =
      List.map (fun month => ⟨month, 0, 0, 0, 0, 0⟩) monthNames := by
    simp [Analysis7.generateMonthlyBreakdown, toFixed2, toFixedRound, jsRound]
    norm_num [Int.floor_eq_iff]
  rw [hb]
  simp [monthNames]

/-- Claim C10 (confirmed): the bill helpers return `null` — not a computed
zero — whenever a required numeric input is zero: zero usage or rate for
`calculateUtilityBill`, zero usage, production or rate for
`calculateUtilityBillWithSolar`, and a zero (or null) bill-without-solar
for `calculateSavings`. -/
theorem C10_zero_inputs_null :
    (∀ r, UtilityBillParser.calculateUtilityBill 0 r = none) ∧
    (∀ u, UtilityBillParser.calculateUtilityBill u 0 = none) ∧
    (∀ p r, UtilityBillParser.calculateUtilityBillWithSolar 0 p r = none) ∧
    (∀ u r, UtilityBillParser.calculateUtilityBillWithSolar u 0 r = none) ∧
    (∀ u p, UtilityBillParser.calculateUtilityBillWithSolar u p 0 = none) ∧
    (∀ bs, UtilityBillParser.calculateSavings (some 0) bs = none) ∧
    (∀ bs, UtilityBillParser.calculateSavings none bs = none) := by
  refine ⟨?_, ?_, ?_, ?_, ?_, ?_, ?_⟩ <;> intros <;>
    first
    | simp [UtilityBillParser.calculateUtilityBill,
        UtilityBillParser.calculateUtilityBillWithSolar]
    | (rename_i bs; cases bs <;>
        simp [UtilityBillParser.calculateSavings])
